import Mathlib

/-!
Shallow embedding of the Crocro chat extension's delivery, storage,
negotiation, signaling-reconnect and relay-server logic, with theorems
checking the design document's claims against the code.
-/

namespace Crocro

/-! ### Storage (`StorageManager`, IndexedDB object store `messages`, keyPath `id`) -/

/-- A record of the `messages` object store (interface `Message` in storage.ts).
`delivered` and `read` are the optional status flags (absent = false). -/
structure StoredMessage where
  id : String
  roomId : String
  text : String
  timestamp : Nat
  fromSelf : Bool
  delivered : Bool
  read : Bool
deriving Repr, DecidableEq

/-- IndexedDB `store.put(record)` on a store with `keyPath: 'id'`: replaces the
record whose key equals `m.id` when one exists, otherwise adds the record.
`StorageManager.saveMessage` is exactly one such `put`. -/
def saveMessage (store : List StoredMessage) (m : StoredMessage) : List StoredMessage :=
  if store.any (fun r => decide (r.id = m.id)) then
    store.map (fun r => if r.id = m.id then m else r)
  else
    store ++ [m]

/-- Number of records in the store whose key equals `i`. -/
def countId (store : List StoredMessage) (i : String) : Nat :=
  store.countP (fun r => decide (r.id = i))

/-- The store holds at most one record per key (IndexedDB keyed-store invariant). -/
def uniqueIds (store : List StoredMessage) : Prop :=
  (store.map (fun r => r.id)).Nodup

instance (store : List StoredMessage) : Decidable (uniqueIds store) := by
  unfold uniqueIds; infer_instance

lemma countId_eq_zero_of_not_any (store : List StoredMessage) (i : String)
    (h : store.any (fun r => decide (r.id = i)) = false) : countId store i = 0 := by
  unfold countId
  induction store with
  | nil => rfl
  | cons a l ih =>
    simp only [List.any_cons, Bool.or_eq_false_iff] at h
    simp only [List.countP_cons, h.1, ih h.2, Bool.false_eq_true, if_false]

lemma countId_saveMessage (store : List StoredMessage) (m : StoredMessage)
    (h : countId store m.id ≤ 1) : countId (saveMessage store m) m.id = 1 := by
  unfold saveMessage
  by_cases hany : store.any (fun r => decide (r.id = m.id)) = true
  · rw [if_pos hany]
    have hmap : countId (store.map (fun r => if r.id = m.id then m else r)) m.id
        = countId store m.id := by
      unfold countId
      rw [List.countP_map]
      apply List.countP_congr
      intro r _
      by_cases hr : r.id = m.id
      · simp [Function.comp, hr]
      · simp [Function.comp, hr]
    rw [hmap]
    -- `any` true gives at least one matching record, `h` gives at most one
    have hpos : 0 < countId store m.id := by
      rcases List.any_eq_true.mp hany with ⟨r, hrmem, hr⟩
      unfold countId
      exact List.countP_pos_iff.mpr ⟨r, hrmem, hr⟩
    omega
  · rw [if_neg hany]
    unfold countId
    rw [List.countP_append]
    have h0 : countId store m.id = 0 :=
      countId_eq_zero_of_not_any store m.id (Bool.eq_false_iff.mpr hany)
    unfold countId at h0
    simp [h0]

lemma uniqueIds_saveMessage (store : List StoredMessage) (m : StoredMessage)
    (h : uniqueIds store) : uniqueIds (saveMessage store m) := by
  unfold saveMessage
  by_cases hany : store.any (fun r => decide (r.id = m.id)) = true
  · rw [if_pos hany]
    have hids : (store.map (fun r => if r.id = m.id then m else r)).map (fun r => r.id)
        = store.map (fun r => r.id) := by
      rw [List.map_map]
      apply List.map_congr_left
      intro r _
      by_cases hr : r.id = m.id
      · simp [Function.comp, hr]
      · simp [Function.comp, hr]
    unfold uniqueIds
    rw [hids]
    exact h
  · rw [if_neg hany]
    unfold uniqueIds
    rw [List.map_append, List.nodup_append]
    refine ⟨h, List.nodup_singleton _, ?_⟩
    intro a ha hb
    simp only [List.map_cons, List.map_nil, List.mem_singleton] at hb
    subst hb
    rcases List.mem_map.mp ha with ⟨r, hrmem, hr⟩
    exact hany (List.any_eq_true.mpr ⟨r, hrmem, by simp [hr]⟩)

lemma countId_le_one_of_uniqueIds (store : List StoredMessage) (i : String)
    (h : uniqueIds store) : countId store i ≤ 1 := by
  unfold countId
  induction store with
  | nil => simp
  | cons a l ih =>
    unfold uniqueIds at h
    simp only [List.map_cons, List.nodup_cons] at h
    have hl := ih h.2
    rw [List.countP_cons]
    by_cases ha : a.id = i
    · have hzero : l.countP (fun r => decide (r.id = i)) = 0 := by
        rw [List.countP_eq_zero]
        intro r hrmem
        simp only [decide_eq_true_eq]
        intro hr
        exact h.1 (List.mem_map.mpr ⟨r, hrmem, by rw [hr, ha]⟩)
      simp [ha, hzero]
    · simpa [ha] using hl

/-- Claim C4: persisting the same `ChatPayload` id twice (for example once per
transport) results in exactly one stored record for that id — `saveMessage` is a
keyed `put`, idempotent in the id key — and the store keeps at most one record
per id. -/
theorem saveMessage_idempotent_in_id (store : List StoredMessage) (m m2 : StoredMessage)
    (hid : m2.id = m.id) (h : uniqueIds store) :
    countId (saveMessage (saveMessage store m) m2) m.id = 1 ∧
    uniqueIds (saveMessage (saveMessage store m) m2) := by
  have h1 : uniqueIds (saveMessage store m) := uniqueIds_saveMessage store m h
  constructor
  · have hle : countId (saveMessage store m) m2.id ≤ 1 := by
      rw [hid]
      exact countId_le_one_of_uniqueIds _ _ h1
    have := countId_saveMessage (saveMessage store m) m2 hle
    rwa [hid] at this
  · exact uniqueIds_saveMessage _ m2 h1

/-- Witness for C4: a concrete double save of id `A` leaves exactly one record. -/
theorem saveMessage_idempotent_in_id_witness :
    countId (saveMessage (saveMessage []
        ⟨"A", "ROOM01", "hi", 5, false, false, false⟩)
        ⟨"A", "ROOM01", "hi", 7, false, false, false⟩) "A" = 1 ∧
    uniqueIds (saveMessage (saveMessage []
        ⟨"A", "ROOM01", "hi", 5, false, false, false⟩)
        ⟨"A", "ROOM01", "hi", 7, false, false, false⟩) :=
  saveMessage_idempotent_in_id []
    ⟨"A", "ROOM01", "hi", 5, false, false, false⟩
    ⟨"A", "ROOM01", "hi", 7, false, false, false⟩ (by decide) (by decide)

/-! ### Delivery layer (`BackgroundService`, background service worker variant
that hosts the RTC manager itself: `handleIncomingMessage`,
`handleIncomingRTCMessage`, `sendMessage`, `getConnectionStatus`). -/

/-- An inbound chat payload of kind Message (relayed frame `data` or
data-channel `message`). -/
structure InboundPayload where
  id : String
  text : String
  timestamp : Nat
deriving Repr, DecidableEq

/-- The record built from an inbound payload before saving:
`{ ...message, from: 'peer', roomId }`. -/
def asPeerRecord (roomId : String) (m : InboundPayload) : StoredMessage :=
  ⟨m.id, roomId, m.text, m.timestamp, false, false, false⟩

/-- Events the background service emits toward the application layer. -/
inductive UIEvent where
  | relayMessageReceived (m : StoredMessage)
  | rtcMessageReceived (m : StoredMessage)
  | messageReceived (m : StoredMessage)
  | messageSent (m : StoredMessage)
deriving Repr, DecidableEq

/-- The background-service state that the receive paths touch. -/
structure BGState where
  currentRoomId : Option String
  popupConnected : Bool
  store : List StoredMessage
  pendingMessages : List StoredMessage
deriving Repr, DecidableEq

/-- `BackgroundService.handleIncomingMessage` (relayed transport): save the
record, forward to the popup when connected, and notify `MESSAGE_RECEIVED`. -/
def handleIncomingMessage (s : BGState) (m : InboundPayload) : BGState × List UIEvent :=
  match s.currentRoomId with
  | none => (s, [])
  | some roomId =>
    let incoming := asPeerRecord roomId m
    ({ s with store := saveMessage s.store incoming },
     (if s.popupConnected then [UIEvent.relayMessageReceived incoming] else [])
       ++ [UIEvent.messageReceived incoming])

/-- `BackgroundService.handleIncomingRTCMessage` (direct transport): save the
record, forward to the popup or queue it, and notify `MESSAGE_RECEIVED`. -/
def handleIncomingRTCMessage (s : BGState) (m : InboundPayload) : BGState × List UIEvent :=
  match s.currentRoomId with
  | none => (s, [])
  | some roomId =>
    let incoming := asPeerRecord roomId m
    ({ s with
        store := saveMessage s.store incoming,
        pendingMessages :=
          if s.popupConnected then s.pendingMessages else s.pendingMessages ++ [incoming] },
     (if s.popupConnected then [UIEvent.rtcMessageReceived incoming] else [])
       ++ [UIEvent.messageReceived incoming])

/-- Claim C2 as stated: a duplicate inbound Message (id already persisted) is
discarded without emitting a received-message event. Refuted: delivering the
same payload twice over the relayed transport emits a `MESSAGE_RECEIVED`
notification both times. -/
theorem duplicate_is_redelivered :
    (handleIncomingMessage
        (handleIncomingMessage ⟨some "ROOM01", false, [], []⟩ ⟨"A", "hi", 5⟩).1
        ⟨"A", "hi", 5⟩).2
      = [UIEvent.messageReceived (asPeerRecord "ROOM01" ⟨"A", "hi", 5⟩)] := by decide

/-- Claim C2 amended: the receive path never consults the store before
delivering — on both transports it upserts the record by id (so a duplicate id
still leaves exactly one persisted record) and emits exactly one
received-message event for every inbound Message payload, duplicates included. -/
theorem inbound_message_upserts_and_always_notifies (s : BGState) (m : InboundPayload)
    (roomId : String) (hroom : s.currentRoomId = some roomId) (h : uniqueIds s.store) :
    countId (handleIncomingMessage s m).1.store m.id = 1 ∧
    countId (handleIncomingRTCMessage s m).1.store m.id = 1 ∧
    (handleIncomingMessage s m).2.count
      (UIEvent.messageReceived (asPeerRecord roomId m)) = 1 ∧
    (handleIncomingRTCMessage s m).2.count
      (UIEvent.messageReceived (asPeerRecord roomId m)) = 1 := by
  have hcount : countId (saveMessage s.store (asPeerRecord roomId m)) m.id = 1 :=
    countId_saveMessage s.store (asPeerRecord roomId m)
      (countId_le_one_of_uniqueIds s.store _ h)
  refine ⟨?_, ?_, ?_, ?_⟩
  · simp only [handleIncomingMessage, hroom]
    exact hcount
  · simp only [handleIncomingRTCMessage, hroom]
    exact hcount
  · simp only [handleIncomingMessage, hroom]
    by_cases hp : s.popupConnected <;> simp [hp, List.count_cons, List.count_nil]
  · simp only [handleIncomingRTCMessage, hroom]
    by_cases hp : s.popupConnected <;> simp [hp, List.count_cons, List.count_nil]

/-- Witness for the amended C2 at a concrete state and payload. -/
theorem inbound_message_upserts_and_always_notifies_witness :
    countId (handleIncomingMessage ⟨some "ROOM01", true, [], []⟩ ⟨"B", "yo", 9⟩).1.store "B" = 1 ∧
    countId (handleIncomingRTCMessage ⟨some "ROOM01", true, [], []⟩ ⟨"B", "yo", 9⟩).1.store "B" = 1 ∧
    (handleIncomingMessage ⟨some "ROOM01", true, [], []⟩ ⟨"B", "yo", 9⟩).2.count
      (UIEvent.messageReceived (asPeerRecord "ROOM01" ⟨"B", "yo", 9⟩)) = 1 ∧
    (handleIncomingRTCMessage ⟨some "ROOM01", true, [], []⟩ ⟨"B", "yo", 9⟩).2.count
      (UIEvent.messageReceived (asPeerRecord "ROOM01" ⟨"B", "yo", 9⟩)) = 1 :=
  inbound_message_upserts_and_always_notifies ⟨some "ROOM01", true, [], []⟩ ⟨"B", "yo", 9⟩
    "ROOM01" rfl (by decide)

/-! ### Send path (`BackgroundService.sendMessage` with `RTCManager.sendMessage`
and `SignalingClient.sendRelayMessage` as the two transports). -/

/-- A transport-level send performed during one send attempt. -/
inductive SendEmission where
  | directSend (id : String)
  | relaySend (id : String)
deriving Repr, DecidableEq

/-- The fields of `BackgroundService` that `sendMessage` reads. -/
structure SendCtx where
  currentRoomId : Option String
  rtcPresent : Bool
  rtcConnected : Bool
  signalingPresent : Bool
deriving Repr, DecidableEq

/-- Result of one `sendMessage` call: whether the caller sees success, and the
transport sends performed. -/
structure SendOutcome where
  ok : Bool
  emissions : List SendEmission
deriving Repr, DecidableEq

/-- `BackgroundService.sendMessage`: reject when no room; otherwise save, try
the direct transport when the RTC manager reports its channel open, fall back
to the relayed transport when the direct call reports failure, and return
success. `directOk` is the outcome the direct-transport send call reports. -/
def sendMessage (ctx : SendCtx) (id : String) (directOk : Bool) : SendOutcome :=
  match ctx.currentRoomId with
  | none => ⟨false, []⟩
  | some _ =>
    let tryDirect := ctx.rtcPresent && ctx.rtcConnected
    let directEmissions := if tryDirect then [SendEmission.directSend id] else []
    let messageSent := tryDirect && directOk
    let relayEmissions :=
      if !messageSent && ctx.signalingPresent then [SendEmission.relaySend id] else []
    ⟨true, directEmissions ++ relayEmissions⟩

/-- Claim C3: whenever the direct-transport send call reports failure, the same
id is sent exactly once over the relayed transport within that same send
attempt (the sole retry — one direct attempt, one relay send, no loop) and the
caller still receives success. (`signalingPresent` holds in every reachable
state with an active room: `createRoom`/`joinRoom` install the signaling client
before setting `currentRoomId` and `leaveRoom` clears both.) -/
theorem direct_send_failure_falls_back_once (ctx : SendCtx) (id : String)
    (hroom : ∃ r, ctx.currentRoomId = some r)
    (hrtc : ctx.rtcPresent = true) (hconn : ctx.rtcConnected = true)
    (hsig : ctx.signalingPresent = true) :
    (sendMessage ctx id false).emissions.count (SendEmission.relaySend id) = 1 ∧
    (sendMessage ctx id false).emissions.count (SendEmission.directSend id) = 1 ∧
    (sendMessage ctx id false).ok = true := by
  rcases hroom with ⟨r, hr⟩
  simp [sendMessage, hr, hrtc, hconn, hsig, List.count_cons]

/-- Witness for C3 at a concrete context whose direct send fails. -/
theorem direct_send_failure_falls_back_once_witness :
    (sendMessage ⟨some "ROOM01", true, true, true⟩ "A" false).emissions.count
      (SendEmission.relaySend "A") = 1 ∧
    (sendMessage ⟨some "ROOM01", true, true, true⟩ "A" false).emissions.count
      (SendEmission.directSend "A") = 1 ∧
    (sendMessage ⟨some "ROOM01", true, true, true⟩ "A" false).ok = true :=
  direct_send_failure_falls_back_once ⟨some "ROOM01", true, true, true⟩ "A"
    ⟨"ROOM01", rfl⟩ rfl rfl rfl

/-! ### Connection status (`BackgroundService.getConnectionStatus`). -/

/-- The externally reported connection status. -/
inductive Status where
  | connected
  | connecting
  | disconnected
deriving Repr, DecidableEq

/-- The fields `getConnectionStatus` reads: signaling state, availability of
the WebRTC APIs in this context, the direct data channel's open state, the
relay two-party-presence flag, and whether a room is active. -/
structure StatusInput where
  signalingConnected : Bool
  rtcAvailable : Bool
  rtcConnected : Bool
  isRelayConnected : Bool
  roomActive : Bool
deriving Repr, DecidableEq

/-- `BackgroundService.getConnectionStatus` (the variant hosting the RTC
manager): `effectivelyConnected = webrtcConnected || (typeof RTCPeerConnection
=== 'undefined' && isRelayConnected)`; `connected` on that, else `connecting`
when signaling is connected and a room is active, else `disconnected`. -/
def getConnectionStatus (i : StatusInput) : Status :=
  let effectivelyConnected := i.rtcConnected || (!i.rtcAvailable && i.isRelayConnected)
  if effectivelyConnected then Status.connected
  else if i.signalingConnected && i.roomActive then Status.connecting
  else Status.disconnected

/-- The status derivation exactly as the spec words it (for comparison with the
code's): `connected` iff direct transport open OR relayed transport has
confirmed two-party presence; `connecting` iff signaling connected and a room
active but neither of the above; `disconnected` otherwise. -/
def specConnectionStatus (i : StatusInput) : Status :=
  if i.rtcConnected || i.isRelayConnected then Status.connected
  else if i.signalingConnected && i.roomActive then Status.connecting
  else Status.disconnected

/-- Claim C7 as stated is refuted: in the state where WebRTC APIs are available
but the RTC manager is gone (initialization failed), relay presence is
confirmed, signaling is connected and a room is active, the code reports
`connecting` while the spec's derivation demands `connected` — relay presence
only counts when the WebRTC APIs are unavailable. -/
theorem connectionStatus_diverges_from_spec :
    getConnectionStatus ⟨true, true, false, true, true⟩ = Status.connecting ∧
    specConnectionStatus ⟨true, true, false, true, true⟩ = Status.connected := by decide

/-- Claim C7 amended: `connected` exactly when the direct transport is open OR
(the WebRTC APIs are unavailable in this context AND the relayed transport has
confirmed two-party presence); `connecting` exactly when signaling is connected
and a room is active but that condition fails; `disconnected` otherwise. -/
def amendedConnectionStatus (i : StatusInput) : Status :=
  if i.rtcConnected then Status.connected
  else if !i.rtcAvailable && i.isRelayConnected then Status.connected
  else if i.signalingConnected && i.roomActive then Status.connecting
  else Status.disconnected

/-- Claim C7 amended, proved: the code's status derivation agrees with the
amended derivation on every input. -/
theorem connectionStatus_matches_amended_spec :
    ∀ i : StatusInput, getConnectionStatus i = amendedConnectionStatus i := by
  intro i
  rcases i with ⟨a, b, c, d, e⟩
  cases a <;> cases b <;> cases c <;> cases d <;> cases e <;> rfl

/-! ### Data-channel control frames (`RTCManager.handleDataChannelMessage` and
acknowledgment/read-receipt persistence). -/

/-- A direct-transport payload (`DataChannelMessage`). -/
inductive DCMessage where
  | message (id : String) (text : String) (timestamp : Nat)
  | typing (isTyping : Bool)
  | ack (id : String)
  | readReceipt (id : String)
deriving Repr, DecidableEq

/-- What reaches the background service from the data channel:
`RTCManager.handleDataChannelMessage` hands kind `message` to `onMessage`
(which runs `handleIncomingRTCMessage`) and merely logs `typing`, `ack` and
`read-receipt`, touching no stored record. -/
def processInboundDC (s : BGState) (msg : DCMessage) : BGState × List UIEvent :=
  match msg with
  | DCMessage.message id text ts => handleIncomingRTCMessage s ⟨id, text, ts⟩
  | DCMessage.typing _ => (s, [])
  | DCMessage.ack _ => (s, [])
  | DCMessage.readReceipt _ => (s, [])

/-- Claim C8 as stated is refuted: with a persisted self-authored record `X`
whose delivered flag is unset, processing an inbound `Ack` for `X` leaves the
flag unset (and a `ReadReceipt` likewise leaves the read flag unset) — the
handlers only log. -/
theorem ack_does_not_update_delivered :
    ((processInboundDC
        ⟨some "ROOM01", true, [⟨"X", "ROOM01", "hi", 5, true, false, false⟩], []⟩
        (DCMessage.ack "X")).1.store.map (fun r => r.delivered) = [false]) ∧
    ((processInboundDC
        ⟨some "ROOM01", true, [⟨"X", "ROOM01", "hi", 5, true, false, false⟩], []⟩
        (DCMessage.readReceipt "X")).1.store.map (fun r => r.read) = [false]) := by decide

/-- Claim C8 amended: inbound `Ack` and `ReadReceipt` payloads are logged only;
they leave the background state — in particular every persisted record's
delivered and read flags — unchanged, and emit nothing to the application layer
(`StorageManager.updateMessageStatus` exists but is never invoked). -/
theorem ack_and_readReceipt_leave_store_unchanged (s : BGState) (id : String) :
    processInboundDC s (DCMessage.ack id) = (s, []) ∧
    processInboundDC s (DCMessage.readReceipt id) = (s, []) :=
  ⟨rfl, rfl⟩

/-! ### Negotiation (`RTCManager` plus `BackgroundService.handleRTCSignal`).
`RTCM.initConnection` embeds `RTCManager.initialize`, and `initRTC` embeds
`BackgroundService.initializeRTC`. -/

/-- `RTCPeerConnectionState`. -/
inductive ConnState where
  | new
  | connecting
  | connected
  | disconnected
  | failed
  | closed
deriving Repr, DecidableEq

/-- The `RTCManager` fields relevant to negotiation: its role, whether a peer
connection object exists, its connection state, whether a remote session
description has been applied, and which ICE candidates have been handed to
`addIceCandidate` (in order). -/
structure RTCM where
  isInitiator : Bool
  pcPresent : Bool
  connectionState : ConnState
  remoteDescSet : Bool
  appliedCandidates : List String
deriving Repr, DecidableEq

/-- Signals the RTC manager emits via `onSignal`. -/
inductive RTCOut where
  | offer
  | answer
  | iceCandidate (c : String)
deriving Repr, DecidableEq

/-- Negotiation envelopes handed to `RTCManager.handleSignal`. -/
inductive RTCSignal where
  | offer
  | answer
  | iceCandidate (c : String)
deriving Repr, DecidableEq

/-- `new RTCManager(config)`: no peer connection yet, state `new`. -/
def RTCM.fresh : RTCM := ⟨false, false, ConnState.new, false, []⟩

/-- `RTCManager.initialize(isInitiator)`: create a fresh peer connection (no
remote description, no applied candidates); as the initiator also create the
data channel and emit a local offer. -/
def RTCM.initConnection (m : RTCM) (isInit : Bool) : RTCM × List RTCOut :=
  ({ m with isInitiator := isInit, pcPresent := true,
            remoteDescSet := false, appliedCandidates := [] },
   if isInit then [RTCOut.offer] else [])

/-- `RTCManager.handleSignal`: no-op without a peer connection; an offer sets
the remote description and emits an answer; an answer sets the remote
description; an ICE candidate is passed straight to `addIceCandidate` — there
is no buffering and no check that the remote description has been set. -/
def RTCM.handleSignal (m : RTCM) (sig : RTCSignal) : RTCM × List RTCOut :=
  if m.pcPresent then
    match sig with
    | RTCSignal.offer => ({ m with remoteDescSet := true }, [RTCOut.answer])
    | RTCSignal.answer => ({ m with remoteDescSet := true }, [])
    | RTCSignal.iceCandidate c =>
        ({ m with appliedCandidates := m.appliedCandidates ++ [c] }, [])
  else (m, [])

/-- Claim C1: an ICE candidate that arrives before the remote session
description has been applied is buffered, never applied immediately. Refuted
by the code: `handleIceCandidate` passes the candidate to `addIceCandidate` at
once even while the remote description is still unset. -/
theorem early_candidate_applied_immediately (m : RTCM) (c : String)
    (hpc : m.pcPresent = true) (hremote : m.remoteDescSet = false) :
    (RTCM.handleSignal m (RTCSignal.iceCandidate c)).1.appliedCandidates
      = m.appliedCandidates ++ [c] ∧
    (RTCM.handleSignal m (RTCSignal.iceCandidate c)).1.remoteDescSet = false := by
  simp [RTCM.handleSignal, hpc, hremote]

/-- Witness for C1: a candidate arriving at a joiner that has not yet received
an offer is applied immediately. -/
theorem early_candidate_applied_immediately_witness :
    (RTCM.handleSignal ⟨false, true, ConnState.new, false, []⟩
        (RTCSignal.iceCandidate "cand0")).1.appliedCandidates = [] ++ ["cand0"] ∧
    (RTCM.handleSignal ⟨false, true, ConnState.new, false, []⟩
        (RTCSignal.iceCandidate "cand0")).1.remoteDescSet = false :=
  early_candidate_applied_immediately ⟨false, true, ConnState.new, false, []⟩ "cand0" rfl rfl

/-- JavaScript `a || b` over boolean-or-undefined values (`none` stands for
`undefined`): the left operand when it is truthy, otherwise the right one. -/
def jsOr (a b : Option Bool) : Option Bool :=
  if a = some true then a else b

/-- Signals arriving at `BackgroundService.handleRTCSignal`. A
`peer-reconnected` frame carries the top-level `isInitiator` field and the
`data?.isInitiator` field separately, each possibly absent; the frames the
system produces (`notifyRTCReady` sends `{type:'peer-reconnected',
isInitiator}` and the relay spreads it at top level) have `isInitiator`
present and no `data` field. -/
inductive BGSignal where
  | peerJoined
  | peerLeft
  | peerReconnected (isInitiator : Option Bool) (dataIsInitiator : Option Bool)
  | offerSignal
  | answerSignal
  | iceSignal (c : String)
deriving Repr, DecidableEq

/-- The `BackgroundService` fields that `handleRTCSignal` reads. -/
structure BGRtc where
  isRoomInitiator : Bool
  rtcAvailable : Bool
  rtcManager : Option RTCM
  isRelayConnected : Bool
deriving Repr, DecidableEq

/-- `BackgroundService.initializeRTC`: without WebRTC APIs there is no manager;
the room initiator starts negotiation right away (fresh offer); a joiner only
constructs the manager shell and waits. -/
def initRTC (isRoomInitiator : Bool) (rtcAvailable : Bool) : Option RTCM × List RTCOut :=
  if rtcAvailable then
    if isRoomInitiator then
      let p := RTCM.fresh.initConnection true
      (some p.1, p.2)
    else (some RTCM.fresh, [])
  else (none, [])

/-- `BackgroundService.handleRTCSignal`: with no WebRTC (or no manager) only
the relay-presence flags change; `peer-joined` re-negotiates only on the
initiator side; for `peer-reconnected` the code computes `peerWasInitiator =
signal.isInitiator || signal.data?.isInitiator` and re-offers only when
`peerWasInitiator === false` and the local side is the initiator; an incoming
offer first rebuilds the connection (as joiner) when the manager is
`new`/`closed`/`disconnected`, then answers; answers and candidates are
forwarded to the manager. -/
def handleRTCSignal (s : BGRtc) (sig : BGSignal) : BGRtc × List RTCOut :=
  match s.rtcManager, s.rtcAvailable with
  | some m, true =>
    match sig with
    | BGSignal.peerJoined =>
        if s.isRoomInitiator then
          let p := m.initConnection s.isRoomInitiator
          ({ s with rtcManager := some p.1 }, p.2)
        else (s, [])
    | BGSignal.peerLeft => (s, [])
    | BGSignal.peerReconnected isInit dataIsInit =>
        if jsOr isInit dataIsInit = some false ∧ s.isRoomInitiator = true then
          let p := m.initConnection s.isRoomInitiator
          ({ s with rtcManager := some p.1 }, p.2)
        else (s, [])
    | BGSignal.offerSignal =>
        let p1 :=
          if m.connectionState = ConnState.new ∨ m.connectionState = ConnState.closed
              ∨ m.connectionState = ConnState.disconnected then
            m.initConnection false
          else (m, [])
        let p2 := p1.1.handleSignal RTCSignal.offer
        ({ s with rtcManager := some p2.1 }, p1.2 ++ p2.2)
    | BGSignal.answerSignal =>
        let p := m.handleSignal RTCSignal.answer
        ({ s with rtcManager := some p.1 }, p.2)
    | BGSignal.iceSignal c =>
        let p := m.handleSignal (RTCSignal.iceCandidate c)
        ({ s with rtcManager := some p.1 }, p.2)
  | _, _ =>
    match sig with
    | BGSignal.peerJoined => ({ s with isRelayConnected := true }, [])
    | BGSignal.peerLeft => ({ s with isRelayConnected := false }, [])
    | _ => (s, [])

/-- Claim C5: the Joiner half holds — a party whose role is Joiner never emits
an unsolicited offer, from any inbound signal or when its RTC machinery is
(re)built — but the Initiator half fails on the code: the joiner-restart frame
the system actually produces carries top-level `isInitiator:false` and no
`data` field, so `peerWasInitiator = signal.isInitiator ||
signal.data?.isInitiator` evaluates to `undefined` (`false || undefined`),
`peerWasInitiator === false` never holds, and the initiator's re-offer branch
is dead: no fresh offer is emitted and the state is unchanged, contradicting
the claim (and the code's own comment announcing a fresh offer). -/
theorem reoffer_branch_never_fires (s : BGRtc) (m : RTCM)
    (hI : s.isRoomInitiator = true) (hA : s.rtcAvailable = true)
    (hM : s.rtcManager = some m) :
    (handleRTCSignal s (BGSignal.peerReconnected (some false) none)).2.count
      RTCOut.offer = 0 ∧
    (handleRTCSignal s (BGSignal.peerReconnected (some false) none)).1 = s ∧
    (∀ (s2 : BGRtc) (sig : BGSignal), s2.isRoomInitiator = false →
       (handleRTCSignal s2 sig).2.count RTCOut.offer = 0) ∧
    (∀ avail : Bool, (initRTC false avail).2.count RTCOut.offer = 0) := by
  rcases s with ⟨ri, avail, mgr, relay⟩
  simp only at hI hA hM
  subst hI; subst hA; subst hM
  refine ⟨rfl, rfl, ?_, ?_⟩
  · intro s2 sig hJ
    rcases s2 with ⟨ri2, avail2, mgr2, relay2⟩
    simp only at hJ
    subst hJ
    cases mgr2 with
    | none => cases sig <;> rfl
    | some m2 =>
      cases avail2 with
      | false => cases sig <;> rfl
      | true =>
        cases sig <;>
          simp [handleRTCSignal, RTCM.initConnection, RTCM.handleSignal, jsOr] <;>
          split_ifs <;> simp_all
  · intro avail2
    cases avail2 <;> rfl

/-- Witness for C5: a concrete initiator receiving the produced
`peer-reconnected{isInitiator:false}` frame emits no offer and keeps its state. -/
theorem reoffer_branch_never_fires_witness :
    (handleRTCSignal ⟨true, true, some RTCM.fresh, false⟩
        (BGSignal.peerReconnected (some false) none)).2.count RTCOut.offer = 0 ∧
    (handleRTCSignal ⟨true, true, some RTCM.fresh, false⟩
        (BGSignal.peerReconnected (some false) none)).1
      = ⟨true, true, some RTCM.fresh, false⟩ :=
  ⟨(reoffer_branch_never_fires ⟨true, true, some RTCM.fresh, false⟩
      RTCM.fresh rfl rfl rfl).1,
   (reoffer_branch_never_fires ⟨true, true, some RTCM.fresh, false⟩
      RTCM.fresh rfl rfl rfl).2.1⟩

/-! ### Signaling reconnect backoff (`SignalingClient`). -/

/-- The `SignalingClient` fields driving reconnection. -/
structure SignalingReconnect where
  reconnectAttempts : Nat
  maxReconnectAttempts : Nat
  reconnectDelay : Nat
deriving Repr, DecidableEq

/-- Field initializers of `SignalingClient`: 0 attempts, cap 5, base 1000 ms. -/
def SignalingClient.start : SignalingReconnect := ⟨0, 5, 1000⟩

/-- `SignalingClient.scheduleReconnect`: bump the attempt counter, then compute
`delay = reconnectDelay * 2 ^ (reconnectAttempts - 1)` with the bumped counter. -/
def scheduleReconnect (s : SignalingReconnect) : SignalingReconnect × Nat :=
  let s2 := { s with reconnectAttempts := s.reconnectAttempts + 1 }
  (s2, s.reconnectDelay * 2 ^ (s2.reconnectAttempts - 1))

/-- The `ws.onclose` path for an unclean close: schedule a reconnect only while
`reconnectAttempts < maxReconnectAttempts`; otherwise nothing is scheduled. -/
def onUncleanClose (s : SignalingReconnect) : SignalingReconnect × Option Nat :=
  if s.reconnectAttempts < s.maxReconnectAttempts then
    ((scheduleReconnect s).1, some (scheduleReconnect s).2)
  else (s, none)

/-- `ws.onopen` in `tryConnect`: a successful connection resets the counter. -/
def onOpen (s : SignalingReconnect) : SignalingReconnect :=
  { s with reconnectAttempts := 0 }

/-- The delays scheduled by `n` consecutive unclean closes with no successful
reconnect in between (`none` = no reconnect scheduled). -/
def uncleanCloseDelays : Nat → SignalingReconnect → List (Option Nat)
  | 0, _ => []
  | n + 1, s => (onUncleanClose s).2 :: uncleanCloseDelays n (onUncleanClose s).1

/-- Claim C9: after an unclean close, reconnect attempt `n` (1 ≤ n ≤ 5) is
scheduled with delay `1000 * 2 ^ (n - 1)` ms — 1s, 2s, 4s, 8s, 16s — and a 6th
consecutive unclean close schedules no further reconnect. -/
theorem backoff_sequence (n : Nat) (h1 : 1 ≤ n) (h5 : n ≤ 5) :
    (uncleanCloseDelays 6 SignalingClient.start)[n - 1]?
      = some (some (1000 * 2 ^ (n - 1))) ∧
    (uncleanCloseDelays 6 SignalingClient.start)[5]? = some none := by
  interval_cases n <;> decide

/-- Witness for C9 at attempt 3 (4s). -/
theorem backoff_sequence_witness :
    (uncleanCloseDelays 6 SignalingClient.start)[2]? = some (some (1000 * 2 ^ 2)) ∧
    (uncleanCloseDelays 6 SignalingClient.start)[5]? = some none :=
  backoff_sequence 3 (by decide) (by decide)

/-! ### Relay server (`server.js`: `RoomManager`, `handleJoinRoom`,
`handleSignal`, `handleRelayMessage`). Connections are identified by numeric
ids standing for the WebSocket objects; the per-connection `peerId` string is
identified with the connection id. -/

/-- A room on the relay server: its member connections and the relayed-message
history kept for debugging. -/
structure ServerRoom where
  clients : List Nat
  messageHistory : List (Nat × String)
deriving Repr, DecidableEq

/-- The server's two registries: `rooms` (roomId to room) and `clients`
(connection to the roomId it joined). -/
structure ServerState where
  rooms : List (String × ServerRoom)
  clients : List (Nat × String)
deriving Repr, DecidableEq

/-- Frames the server sends to clients. -/
inductive Frame where
  | roomCreated (roomId : String)
  | roomJoined (roomId : String)
  | peerJoined (roomId : String) (peerId : Nat)
  | peerLeft (roomId : String) (peerId : Nat)
  | signalFrame (roomId : String) (peerId : Nat) (data : String)
  | relayFrame (roomId : String) (peerId : Nat) (data : String)
  | errorFrame (roomId : Option String) (msg : String)
deriving Repr, DecidableEq

/-- `RoomManager.broadcastToRoom`: send `f` to every member of the room that is
not the excluded connection and whose socket is open. -/
def broadcastToRoom (s : ServerState) (isOpen : Nat → Bool) (roomId : String)
    (f : Frame) (excludeWs : Option Nat) : List (Nat × Frame) :=
  match s.rooms.lookup roomId with
  | none => []
  | some room =>
    (room.clients.filter (fun c => decide (excludeWs ≠ some c) && isOpen c)).map
      (fun c => (c, f))

/-- `RoomManager.joinRoom`: fail when the room is missing or already has 2
members; otherwise add the connection to the room and the client registry and
broadcast `peer-joined` to the other members. Returns the new state, the
success flag, and the frames sent. -/
def RoomManager.joinRoom (s : ServerState) (isOpen : Nat → Bool) (ws : Nat)
    (roomId : String) : ServerState × Bool × List (Nat × Frame) :=
  match s.rooms.lookup roomId with
  | none => (s, false, [])
  | some room =>
    if 2 ≤ room.clients.length then (s, false, [])
    else
      let s2 : ServerState :=
        ⟨s.rooms.map (fun p =>
            if p.1 = roomId then (p.1, ⟨p.2.clients ++ [ws], p.2.messageHistory⟩) else p),
         s.clients ++ [(ws, roomId)]⟩
      (s2, true, broadcastToRoom s2 isOpen roomId (Frame.peerJoined roomId ws) (some ws))

/-- `handleJoinRoom`: answer `room-joined` on success, otherwise the error
frame `Failed to join room (room not found or full)` — with the state left as
it was. -/
def handleJoinRoom (s : ServerState) (isOpen : Nat → Bool) (ws : Nat) (roomId : String) :
    ServerState × List (Nat × Frame) :=
  let res := RoomManager.joinRoom s isOpen ws roomId
  if res.2.1 then (res.1, res.2.2 ++ [(ws, Frame.roomJoined roomId)])
  else (s, [(ws, Frame.errorFrame (some roomId) "Failed to join room (room not found or full)")])

/-- Claim C6: a third join on a room that already has two joined members fails
with the room-full error frame sent to the requester, and both server
registries — the room's member set and every member's client record — are left
unchanged. -/
theorem third_join_rejected (s : ServerState) (isOpen : Nat → Bool) (ws : Nat)
    (roomId : String) (room : ServerRoom)
    (hroom : s.rooms.lookup roomId = some room)
    (hfull : room.clients.length = 2) :
    (handleJoinRoom s isOpen ws roomId).1 = s ∧
    (handleJoinRoom s isOpen ws roomId).2 =
      [(ws, Frame.errorFrame (some roomId)
          "Failed to join room (room not found or full)")] := by
  have h2 : 2 ≤ room.clients.length := by omega
  constructor <;> simp [handleJoinRoom, RoomManager.joinRoom, hroom, h2]

/-- Witness for C6: joining the concrete room `R` that holds members 1 and 2
with connection 3 fails and changes nothing. -/
theorem third_join_rejected_witness :
    (handleJoinRoom ⟨[("R", ⟨[1, 2], []⟩)], [(1, "R"), (2, "R")]⟩ (fun _ => true) 3 "R").1
      = ⟨[("R", ⟨[1, 2], []⟩)], [(1, "R"), (2, "R")]⟩ ∧
    (handleJoinRoom ⟨[("R", ⟨[1, 2], []⟩)], [(1, "R"), (2, "R")]⟩ (fun _ => true) 3 "R").2
      = [(3, Frame.errorFrame (some "R")
          "Failed to join room (room not found or full)")] :=
  third_join_rejected ⟨[("R", ⟨[1, 2], []⟩)], [(1, "R"), (2, "R")]⟩ (fun _ => true) 3 "R"
    ⟨[1, 2], []⟩ rfl rfl

/-- `handleSignal` on the server: a connection not in a room gets an error;
otherwise the signal is wrapped and broadcast to the sender's room with the
sender excluded. -/
def handleSignal (s : ServerState) (isOpen : Nat → Bool) (ws : Nat) (data : String) :
    ServerState × List (Nat × Frame) :=
  match s.clients.lookup ws with
  | none => (s, [(ws, Frame.errorFrame none "Not in a room")])
  | some roomId =>
    (s, broadcastToRoom s isOpen roomId (Frame.signalFrame roomId ws data) (some ws))

/-- `handleRelayMessage` on the server: a connection not in a room gets an
error; otherwise the payload is appended to the room's history and broadcast to
the sender's room with the sender excluded. -/
def handleRelayMessage (s : ServerState) (isOpen : Nat → Bool) (ws : Nat) (data : String) :
    ServerState × List (Nat × Frame) :=
  match s.clients.lookup ws with
  | none => (s, [(ws, Frame.errorFrame none "Not in a room")])
  | some roomId =>
    match s.rooms.lookup roomId with
    | none => (s, [])
    | some _ =>
      let s2 : ServerState :=
        ⟨s.rooms.map (fun p =>
            if p.1 = roomId then (p.1, ⟨p.2.clients, p.2.messageHistory ++ [(ws, data)]⟩) else p),
         s.clients⟩
      (s2, broadcastToRoom s2 isOpen roomId (Frame.relayFrame roomId ws data) (some ws))

lemma not_mem_broadcast_excluded (s : ServerState) (isOpen : Nat → Bool)
    (roomId : String) (f : Frame) (ws : Nat) :
    ws ∉ (broadcastToRoom s isOpen roomId f (some ws)).map Prod.fst := by
  unfold broadcastToRoom
  cases h : s.rooms.lookup roomId with
  | none => simp
  | some room =>
    intro hmem
    rw [List.map_map] at hmem
    rcases List.mem_map.mp hmem with ⟨c, hc, hcw⟩
    have hfilter := List.of_mem_filter hc
    rw [Bool.and_eq_true, decide_eq_true_eq] at hfilter
    simp only [Function.comp_apply] at hcw
    exact hfilter.1 (by rw [hcw])

/-- Claim C10: the relay server never echoes a frame back to its sender — for
every signal or relay-message frame received from a connection that is in a
room, the originating connection is not among the recipients of the resulting
broadcast. -/
theorem server_never_echoes_to_sender (s : ServerState) (isOpen : Nat → Bool)
    (ws : Nat) (data : String) (roomId : String)
    (hmem : s.clients.lookup ws = some roomId) :
    ws ∉ (handleSignal s isOpen ws data).2.map Prod.fst ∧
    ws ∉ (handleRelayMessage s isOpen ws data).2.map Prod.fst := by
  constructor
  · simp only [handleSignal, hmem]
    exact not_mem_broadcast_excluded s isOpen roomId _ ws
  · simp only [handleRelayMessage, hmem]
    cases h : s.rooms.lookup roomId with
    | none => simp
    | some room =>
      simp only
      exact not_mem_broadcast_excluded _ isOpen roomId _ ws

/-- Witness for C10: in the concrete room `R` with members 1 and 2, a signal
and a relayed payload from connection 1 are never sent back to connection 1. -/
theorem server_never_echoes_to_sender_witness :
    1 ∉ (handleSignal ⟨[("R", ⟨[1, 2], []⟩)], [(1, "R"), (2, "R")]⟩
        (fun _ => true) 1 "sdp").2.map Prod.fst ∧
    1 ∉ (handleRelayMessage ⟨[("R", ⟨[1, 2], []⟩)], [(1, "R"), (2, "R")]⟩
        (fun _ => true) 1 "payload").2.map Prod.fst :=
  ⟨(server_never_echoes_to_sender ⟨[("R", ⟨[1, 2], []⟩)], [(1, "R"), (2, "R")]⟩
      (fun _ => true) 1 "sdp" "R" rfl).1,
   (server_never_echoes_to_sender ⟨[("R", ⟨[1, 2], []⟩)], [(1, "R"), (2, "R")]⟩
      (fun _ => true) 1 "payload" "R" rfl).2⟩

end Crocro
